import Mathlib

/-!
Verification of the ledger data model and aggregation code of the Xero
accounting application.

The embedding covers:
* the `journal_lines` CHECK constraints and foreign-key actions of the SQL
  schema (migration `part_008`);
* the dashboard/report aggregation loops (`loadDashboardData` in `part_006`,
  `loadReportData` in `part_007`);
* the expense category accumulation (`part_006`, `Expenses.tsx`);
* default-chart seeding and account deletion (`ChartOfAccounts.tsx`);
* the chart-of-accounts forest assembly (`ChartOfAccounts.tsx` and the
  older variant in `part_005`);
* the Banking projections (`part_004`).

Monetary amounts (`numeric(15,2)` columns, JavaScript numbers at the scale
used by the app) are modelled by `ℚ`; calendar dates by `ℕ` (a day index,
only order matters to the code under study).
-/

namespace Xero

/-- Account types, from the schema CHECK
    `type IN ('asset','liability','equity','income','expense')`. -/
inductive AccountType
  | asset | liability | equity | income | expense
deriving DecidableEq

/-- A row of the `accounts` table (organization scope left implicit: every
    state in this development is the slice of one organization). -/
structure Account where
  id : String
  code : String
  name : String
  type : AccountType
  parent_account_id : Option String
  is_active : Bool
deriving DecidableEq

/-- A journal line as the reader pages receive it: amounts plus the eagerly
    joined `accounts` row (`line.accounts`), `none` when the join fails to
    resolve an account. -/
structure JournalLine where
  debit : ℚ
  credit : ℚ
  account : Option Account
deriving DecidableEq

/-- A `journal_entries` row with its nested `journal_lines (…, accounts (*))`. -/
structure JournalEntry where
  id : String
  date : ℕ
  description : String
  lines : List JournalLine
deriving DecidableEq

/-- The CHECK constraints of the `journal_lines` table:
    `CHECK (debit >= 0 AND credit >= 0)` and
    `CHECK (NOT (debit > 0 AND credit > 0))`.  These are the only write-side
    constraints on a line: the repository contains no journal-entry recording
    code, so a line is persistable exactly when it passes them. -/
def lineCheckOk (l : JournalLine) : Bool :=
  (decide (0 ≤ l.debit) && decide (0 ≤ l.credit))
    && !(decide (0 < l.debit) && decide (0 < l.credit))

/-- An entry is accepted by the persistence layer iff each of its lines
    passes the `journal_lines` CHECK constraints; the schema has no
    entry-level constraint. -/
def journalEntryPersistable (lines : List JournalLine) : Bool :=
  lines.all lineCheckOk

/-- Sum of the debit amounts of an entry's lines. -/
def sumDebits (lines : List JournalLine) : ℚ :=
  (lines.map JournalLine.debit).sum

/-- Sum of the credit amounts of an entry's lines. -/
def sumCredits (lines : List JournalLine) : ℚ :=
  (lines.map JournalLine.credit).sum

/-- The date filter of the dashboard/report queries:
    `.gte('date', jan1).lte('date', dec31)`. -/
def inRange (lo hi : ℕ) (e : JournalEntry) : Bool :=
  decide (lo ≤ e.date) && decide (e.date ≤ hi)

/-- The two running totals of `loadReportData` / `loadDashboardData`. -/
structure ReportTotals where
  totalRevenue : ℚ
  totalExpenses : ℚ
deriving DecidableEq

/-- One iteration of the inner `journal_lines` loop of `loadReportData`
    (`part_007` lines 570-585) and `loadDashboardData` (`part_006` lines
    96-112): a credit on an income account adds to `totalRevenue`, a debit
    on an expense account adds to `totalExpenses`, every other combination
    leaves both totals unchanged. -/
def lineStep (t : ReportTotals) (l : JournalLine) : ReportTotals :=
  match l.account with
  | none => t
  | some a =>
    let t1 := if a.type = AccountType.income ∧ 0 < l.credit then
        { t with totalRevenue := t.totalRevenue + l.credit } else t
    if a.type = AccountType.expense ∧ 0 < l.debit then
      { t1 with totalExpenses := t1.totalExpenses + l.debit } else t1

/-- The per-entry step of the aggregation loop. -/
def entryStep (t : ReportTotals) (e : JournalEntry) : ReportTotals :=
  e.lines.foldl lineStep t

/-- The totals computed by `loadReportData`/`loadDashboardData` over the
    entries of the queried date range. -/
def reportTotals (entries : List JournalEntry) (lo hi : ℕ) : ReportTotals :=
  (entries.filter (inRange lo hi)).foldl entryStep ⟨0, 0⟩

/-- `netProfit = totalRevenue - totalExpenses` (`part_007` line 588). -/
def netProfit (t : ReportTotals) : ℚ :=
  t.totalRevenue - t.totalExpenses

/-- `profitMargin = totalRevenue > 0 ? (netProfit / totalRevenue) * 100 : 0`
    (`part_007` line 589). -/
def profitMargin (t : ReportTotals) : ℚ :=
  if 0 < t.totalRevenue then netProfit t / t.totalRevenue * 100 else 0

/-- Per-line contribution to `totalRevenue`: the credit amount when the line
    is a positive credit on an income account, `0` otherwise (in particular a
    debit on an income account contributes nothing). -/
def creditIfIncome (l : JournalLine) : ℚ :=
  match l.account with
  | some a => if a.type = AccountType.income ∧ 0 < l.credit then l.credit else 0
  | none => 0

/-- Per-line contribution to `totalExpenses`: the debit amount when the line
    is a positive debit on an expense account, `0` otherwise. -/
def debitIfExpense (l : JournalLine) : ℚ :=
  match l.account with
  | some a => if a.type = AccountType.expense ∧ 0 < l.debit then l.debit else 0
  | none => 0

/-- The sign convention exactly as §3 of the specification states it: for
    income, liability and equity accounts credit increases the signed total
    and debit decreases it; for asset and expense accounts debit increases
    it and credit decreases it.  This is the claim side of C4, written from
    the specification, to be compared against the code's aggregation. -/
def specSignedDelta (t : AccountType) (debit credit : ℚ) : ℚ :=
  match t with
  | AccountType.income | AccountType.liability | AccountType.equity => credit - debit
  | AccountType.asset | AccountType.expense => debit - credit

/-- The income total that the specification's sign convention prescribes:
    the sum of `specSignedDelta` over all in-range lines on income accounts. -/
def specIncomeSignedTotal (entries : List JournalEntry) (lo hi : ℕ) : ℚ :=
  (((entries.filter (inRange lo hi)).map (fun e =>
    (e.lines.map (fun l =>
      match l.account with
      | some a =>
          if a.type = AccountType.income then specSignedDelta a.type l.debit l.credit else 0
      | none => 0)).sum)).sum)

/-- Update of the JavaScript object
    `expensesByCategory[account.name] = (expensesByCategory[account.name] || 0) + line.debit`:
    a plain object keeps its string keys in insertion order, so the map is an
    insertion-ordered association list, adding to an existing key in place and
    appending a new key at the end. -/
def upsertAdd : List (String × ℚ) → String → ℚ → List (String × ℚ)
  | [], k, v => [(k, v)]
  | (k0, v0) :: rest, k, v =>
    if k0 = k then (k0, v0 + v) :: rest else (k0, v0) :: upsertAdd rest k v

/-- One iteration of the category accumulation in `loadDashboardData`
    (`part_006` lines 107-111): only a positive debit on an expense account
    touches `expensesByCategory`. -/
def categoryStep (m : List (String × ℚ)) (l : JournalLine) : List (String × ℚ) :=
  match l.account with
  | some a =>
      if a.type = AccountType.expense ∧ 0 < l.debit then upsertAdd m a.name l.debit else m
  | none => m

/-- The `expensesByCategory` object after the dashboard's aggregation loop
    over the in-range entries. -/
def expensesByCategory (entries : List JournalEntry) (lo hi : ℕ) : List (String × ℚ) :=
  (entries.filter (inRange lo hi)).foldl (fun m e => e.lines.foldl categoryStep m) []

/-- `Object.entries(expensesByCategory) … .slice(0, 5)` (`part_006` lines
    141-147): the first five entries of the insertion-ordered map, with no
    sorting applied. -/
def expenseBreakdown (entries : List JournalEntry) (lo hi : ℕ) : List (String × ℚ) :=
  (expensesByCategory entries lo hi).take 5

/-- Per-line contribution to the category of name `k`: the debit when the
    line is a positive debit on an expense account named `k`. -/
def categoryContrib (k : String) (l : JournalLine) : ℚ :=
  match l.account with
  | some a =>
      if a.type = AccountType.expense ∧ 0 < l.debit ∧ a.name = k then l.debit else 0
  | none => 0

/-- The total recorded in an association list under key `k` (keys are kept
    unique by `upsertAdd`, so this is the looked-up value, or `0` when the
    key is absent). -/
def valueOf (m : List (String × ℚ)) (k : String) : ℚ :=
  (m.map (fun p => if p.1 = k then p.2 else 0)).sum

/-- The keys of an association list, in order. -/
def keysOf (m : List (String × ℚ)) : List String :=
  m.map Prod.fst

/-- The ordering the claim about `categoryBreakdown` demands: each total is
    at least the next one (descending by value). -/
def descendingByValue : List (String × ℚ) → Bool
  | [] => true
  | [_] => true
  | a :: b :: rest => decide (b.2 ≤ a.2) && descendingByValue (b :: rest)

/-- An account of the seeded default chart (`createDefaultAccounts` in
    `ChartOfAccounts.tsx`); only code, name and type are supplied by the
    page, the rest is defaulted by the schema. -/
structure SeedAccount where
  code : String
  name : String
  type : AccountType
deriving DecidableEq

/-- The fixed default chart `createDefaultAccounts` inserts
    (`ChartOfAccounts.tsx` lines 129-155). -/
def defaultAccounts : List SeedAccount :=
  [⟨"1000", "Cash and Cash Equivalents", AccountType.asset⟩,
   ⟨"1100", "Accounts Receivable", AccountType.asset⟩,
   ⟨"1200", "Inventory", AccountType.asset⟩,
   ⟨"1500", "Equipment", AccountType.asset⟩,
   ⟨"2000", "Accounts Payable", AccountType.liability⟩,
   ⟨"2100", "Accrued Expenses", AccountType.liability⟩,
   ⟨"2500", "Long-term Debt", AccountType.liability⟩,
   ⟨"3000", "Owners Equity", AccountType.equity⟩,
   ⟨"3100", "Retained Earnings", AccountType.equity⟩,
   ⟨"4000", "Sales Revenue", AccountType.income⟩,
   ⟨"4100", "Service Revenue", AccountType.income⟩,
   ⟨"5000", "Cost of Goods Sold", AccountType.expense⟩,
   ⟨"6000", "Operating Expenses", AccountType.expense⟩,
   ⟨"6100", "Rent Expense", AccountType.expense⟩,
   ⟨"6200", "Utilities Expense", AccountType.expense⟩,
   ⟨"6300", "Marketing Expense", AccountType.expense⟩]

/-- Whether a batch insert collides with an existing code — the
    `UNIQUE(organization_id, code)` constraint of the `accounts` table
    checked against the current rows. -/
def codeConflict (s batch : List SeedAccount) : Bool :=
  batch.any (fun b => s.any (fun a => decide (a.code = b.code)))

/-- Whether the batch itself repeats a code (also rejected by the unique
    constraint within one multi-row insert). -/
def hasDupCode : List SeedAccount → Bool
  | [] => false
  | a :: rest => rest.any (fun b => decide (b.code = a.code)) || hasDupCode rest

/-- A multi-row `insert` into `accounts` under the unique-code constraint:
    the whole batch is rejected (error, no rows written) on any collision,
    otherwise all rows are appended. -/
def insertAccounts (s batch : List SeedAccount) : Except Unit (List SeedAccount) :=
  if codeConflict s batch || hasDupCode batch then Except.error ()
  else Except.ok (s ++ batch)

/-- `createDefaultAccounts` (`ChartOfAccounts.tsx` lines 126-182): inserts
    the full default chart unconditionally — the function itself performs no
    zero-accounts check (the check `accounts.length === 0` exists only on
    the button that shows it). -/
def createDefaultAccounts (s : List SeedAccount) : Except Unit (List SeedAccount) :=
  insertAccounts s defaultAccounts

/-- The state after running `createDefaultAccounts`: on error the page shows
    a failure toast and the rows are unchanged. -/
def applySeed (s : List SeedAccount) : List SeedAccount :=
  match createDefaultAccounts s with
  | Except.ok s1 => s1
  | Except.error _ => s

/-- Whether running `createDefaultAccounts` surfaces an error (the
    `toast.error('Failed to create default accounts')` path). -/
def seedErrored (s : List SeedAccount) : Bool :=
  match createDefaultAccounts s with
  | Except.ok _ => false
  | Except.error _ => true

/-- A stored `journal_lines` row (as persisted, identified by row id and
    the referenced account id). -/
structure DbLine where
  id : String
  account_id : String
  debit : ℚ
  credit : ℚ
deriving DecidableEq

/-- The slice of the database one organization sees: its accounts and its
    journal lines. -/
structure Db where
  accounts : List Account
  journal_lines : List DbLine
deriving DecidableEq

/-- `handleDeleteAccount` (`ChartOfAccounts.tsx` lines 223-244): a plain
    `delete from accounts where id = …`, which under the schema's
    foreign-key actions cascade-deletes every journal line referencing the
    account (`journal_lines.account_id … ON DELETE CASCADE`) and nulls the
    parent reference of its children
    (`accounts.parent_account_id … ON DELETE SET NULL`).  No check for
    referencing journal lines exists anywhere on this path, so the delete
    always succeeds. -/
def handleDeleteAccount (db : Db) (aid : String) : Db :=
  { accounts :=
      (db.accounts.filter (fun a => decide (a.id ≠ aid))).map (fun a =>
        if a.parent_account_id = some aid then { a with parent_account_id := none } else a),
    journal_lines := db.journal_lines.filter (fun l => decide (l.account_id ≠ aid)) }

/-- The root list built by `loadAccounts` in `ChartOfAccounts.tsx` (lines
    93-115): an account is a root when it has no parent, or when its stated
    parent id is not among the loaded accounts (the `else` branch pushing to
    `rootAccounts` on a failed map lookup). -/
def rootAccounts (data : List Account) : List Account :=
  data.filter (fun a =>
    match a.parent_account_id with
    | none => true
    | some pid => !(decide (pid ∈ data.map Account.id)))

/-- The root list built by the older `loadAccounts` variant in `part_005`
    (lines 71-91): only accounts with no parent at all become roots — an
    account whose parent lookup fails is attached nowhere. -/
def rootAccountsV5 (data : List Account) : List Account :=
  data.filter (fun a => a.parent_account_id.isNone)

/-- The children attached to a loaded account `p` (both variants): the
    accounts whose `parent_account_id` equals `p`'s id, in load order. -/
def childrenOf (data : List Account) (p : Account) : List Account :=
  data.filter (fun a => decide (a.parent_account_id = some p.id))

/-- ASCII lower-casing of one character, as `String.prototype.toLowerCase`
    acts on the account names in play. -/
def charLowerAscii (c : Char) : Char :=
  if 'A' ≤ c ∧ c ≤ 'Z' then Char.ofNat (c.toNat + 32) else c

/-- The lower-cased character list of a string. -/
def lowerList (s : String) : List Char :=
  s.toList.map charLowerAscii

/-- Bool-valued list-prefix test, one step of the `includes` search. -/
def listPrefB : List Char → List Char → Bool
  | [], _ => true
  | _ :: _, [] => false
  | c :: cs, d :: ds => decide (c = d) && listPrefB cs ds

/-- Bool-valued contiguous-substring test (`String.prototype.includes`). -/
def listSubB (needle : List Char) : List Char → Bool
  | [] => listPrefB needle []
  | d :: ds => listPrefB needle (d :: ds) || listSubB needle ds

/-- `account.name.toLowerCase().includes(pat)` for a lower-case pattern. -/
def includesLower (name pat : String) : Bool :=
  listSubB pat.toList (lowerList name)

/-- The bank-account name filter of `loadBankingData` (`part_004` lines
    73-79). -/
def isBankLike (n : String) : Bool :=
  includesLower n "cash" || includesLower n "bank"
    || includesLower n "checking" || includesLower n "savings"

/-- A card of the Banking view. -/
structure BankAccount where
  id : String
  name : String
  balance : ℚ
deriving DecidableEq

/-- `bankAccountsData` in `loadBankingData` (`part_004` lines 56-85): active
    asset accounts with a bank-like name, each with
    `balance: 0 // Will be calculated from journal entries` — the balance is
    the literal `0` and is never recomputed anywhere afterwards. -/
def bankAccountsData (accounts : List Account) : List BankAccount :=
  ((accounts.filter (fun a => decide (a.type = AccountType.asset) && a.is_active)).filter
      (fun a => isBankLike a.name)).map
    (fun a => { id := a.id, name := a.name, balance := 0 })

/-- The running balance claim C8 prescribes for an asset account, written
    from the specification (§4.3 step 5): the sum of the signed deltas
    (debit − credit for an asset account) of all stored lines against the
    account, over the full history with no date floor. -/
def specFullHistoryBalance (ls : List DbLine) (aid : String) : ℚ :=
  (ls.map (fun l => if l.account_id = aid then l.debit - l.credit else 0)).sum

/-- A row of the Banking transaction list. -/
structure Txn where
  date : ℕ
  description : String
  amount : ℚ
  category : String
deriving DecidableEq

/-- The per-line transaction projection of `loadBankingData` (`part_004`
    lines 114-131): a line produces a transaction only when its account
    resolved and it has a positive debit or credit; the amount is `-debit`
    for a debit line and `credit` otherwise, the category is the account
    name — the account's type is never consulted. -/
def lineToTransaction (e : JournalEntry) (l : JournalLine) : Option Txn :=
  match l.account with
  | some a =>
      if 0 < l.debit ∨ 0 < l.credit then
        some { date := e.date, description := e.description,
               amount := if 0 < l.debit then -l.debit else l.credit,
               category := a.name }
      else none
  | none => none

/-- The full `transactionsData` list, per entry in order. -/
def transactionsData (entries : List JournalEntry) : List Txn :=
  (entries.map (fun e => e.lines.filterMap (lineToTransaction e))).flatten

/-! Concrete fixtures used by the counterexamples and witnesses below. -/

/-- A sales-revenue income account. -/
def salesAcct : Account :=
  { id := "A1", code := "4000", name := "Sales Revenue",
    type := AccountType.income, parent_account_id := none, is_active := true }

/-- A rent expense account. -/
def rentAcct : Account :=
  { id := "A2", code := "6100", name := "Rent Expense",
    type := AccountType.expense, parent_account_id := none, is_active := true }

/-- A marketing expense account. -/
def adsAcct : Account :=
  { id := "A3", code := "6300", name := "Ads Expense",
    type := AccountType.expense, parent_account_id := none, is_active := true }

/-- A bank-like active asset account named `Cash`. -/
def cashAcct : Account :=
  { id := "C1", code := "1000", name := "Cash",
    type := AccountType.asset, parent_account_id := none, is_active := true }

/-- Lines that each pass the `journal_lines` CHECK constraints but whose
    debit and credit sums differ (100 vs 99). -/
def unbalancedLines : List JournalLine :=
  [{ debit := 100, credit := 0, account := some salesAcct },
   { debit := 0, credit := 99, account := some rentAcct }]

/-- A line with `debit = 0` and `credit = 0`. -/
def zeroZeroLine : JournalLine :=
  { debit := 0, credit := 0, account := some salesAcct }

/-- The input of the C5 round-trip: one credit of 1000 on an income account
    and one debit of 400 on an expense account, both dated in range. -/
def c5Entries : List JournalEntry :=
  [{ id := "E1", date := 5, description := "sale",
     lines := [{ debit := 0, credit := 1000, account := some salesAcct }] },
   { id := "E2", date := 6, description := "rent",
     lines := [{ debit := 400, credit := 0, account := some rentAcct }] }]

/-- The C4 probe: a single in-range debit of 100 on an income account. -/
def c4Entries : List JournalEntry :=
  [{ id := "E3", date := 5, description := "refund",
     lines := [{ debit := 100, credit := 0, account := some salesAcct }] }]

/-- The C7 probe: two expense accounts, the smaller total (`Rent Expense`,
    10) encountered before the larger one (`Ads Expense`, 20). -/
def c7Entries : List JournalEntry :=
  [{ id := "E4", date := 5, description := "bills",
     lines := [{ debit := 10, credit := 0, account := some rentAcct },
               { debit := 20, credit := 0, account := some adsAcct }] }]

/-- One pre-existing account whose code collides with no default code. -/
def oneCustomAccount : List SeedAccount :=
  [⟨"9999", "Custom", AccountType.asset⟩]

/-- A database slice with one account that one journal line references. -/
def dbWithUse : Db :=
  { accounts := [cashAcct],
    journal_lines := [{ id := "L1", account_id := "C1", debit := 100, credit := 0 }] }

/-- The journal line of `dbWithUse`. -/
def lineOnCash : DbLine :=
  { id := "L1", account_id := "C1", debit := 100, credit := 0 }

/-- A root account for the forest fixtures. -/
def acctRoot : Account :=
  { id := "a", code := "1", name := "Root",
    type := AccountType.asset, parent_account_id := none, is_active := true }

/-- An account whose stated parent `zz` is not among the loaded accounts. -/
def acctDangling : Account :=
  { id := "b", code := "2", name := "Orphan",
    type := AccountType.asset, parent_account_id := some "zz", is_active := true }

/-- The loaded chart for the C9 probe: one true root and one account with a
    dangling parent reference. -/
def forestData : List Account :=
  [acctRoot, acctDangling]

/-- A credit line for the C10 witness. -/
def creditLineOnSales : JournalLine :=
  { debit := 0, credit := 250, account := some salesAcct }

/-- The entry carrying `creditLineOnSales`. -/
def c10Entry : JournalEntry :=
  { id := "E5", date := 7, description := "invoice paid",
    lines := [creditLineOnSales] }

/-! Theorems. -/

/-- The `journal_lines` CHECK constraints, read as a proposition. -/
theorem lineCheckOk_iff (l : JournalLine) :
    lineCheckOk l = true
      ↔ 0 ≤ l.debit ∧ 0 ≤ l.credit ∧ ¬(0 < l.debit ∧ 0 < l.credit) := by
  by_cases hd : 0 < l.debit <;> by_cases hc : 0 < l.credit <;>
    simp [lineCheckOk, hd, hc]

/-- C1, counterexample: an entry whose two lines each pass every write-side
    constraint of the schema, yet whose debit sum (100) differs from its
    credit sum (99).  The repository has no journal-entry recording code, so
    the `journal_lines` CHECK constraints are all that stands between input
    and persisted state, and they do not enforce the balance equation. -/
theorem c1_counterexample :
    journalEntryPersistable unbalancedLines = true
      ∧ sumDebits unbalancedLines ≠ sumCredits unbalancedLines := by
  refine ⟨by decide, ?_⟩
  norm_num [sumDebits, sumCredits, unbalancedLines]

/-- C1, amended: recording accepts any entry whose lines each individually
    satisfy the per-line checks debit ≥ 0, credit ≥ 0 and not both positive;
    equality of the debit and credit sums is not required for an entry to be
    recorded and observed by readers. -/
theorem c1_amended (lines : List JournalLine)
    (h : ∀ l ∈ lines, 0 ≤ l.debit ∧ 0 ≤ l.credit ∧ ¬(0 < l.debit ∧ 0 < l.credit)) :
    journalEntryPersistable lines = true := by
  simp only [journalEntryPersistable, List.all_eq_true]
  intro l hl
  exact (lineCheckOk_iff l).2 (h l hl)

/-- Witness for `c1_amended` at the unbalanced fixture. -/
theorem c1_witness : journalEntryPersistable unbalancedLines = true :=
  c1_amended unbalancedLines (by decide)

/-- C2, counterexample: the line with `debit = 0` and `credit = 0` passes
    both CHECK constraints of `journal_lines`, so it is persistable —
    refuting that exactly one side must be strictly positive. -/
theorem c2_counterexample :
    lineCheckOk zeroZeroLine = true
      ∧ zeroZeroLine.debit = 0 ∧ zeroZeroLine.credit = 0 := by
  decide

/-- C2, amended: every persisted journal line has debit ≥ 0, credit ≥ 0 and
    at most one of the two strictly positive; a line with both amounts zero
    is also accepted. -/
theorem c2_amended (l : JournalLine) (h : lineCheckOk l = true) :
    0 ≤ l.debit ∧ 0 ≤ l.credit ∧ ¬(0 < l.debit ∧ 0 < l.credit) :=
  (lineCheckOk_iff l).1 h

/-- Witness for `c2_amended` at the both-zero line. -/
theorem c2_witness :
    0 ≤ zeroZeroLine.debit ∧ 0 ≤ zeroZeroLine.credit
      ∧ ¬(0 < zeroZeroLine.debit ∧ 0 < zeroZeroLine.credit) :=
  c2_amended zeroZeroLine (by decide)

/-- C5: on one in-range credit of 1000 against an income account and one
    in-range debit of 400 against an expense account, the report aggregation
    yields totalRevenue 1000, totalExpenses 400, netProfit 600 and
    profitMargin 60. -/
theorem c5_round_trip :
    reportTotals c5Entries 0 10 = ⟨1000, 400⟩
      ∧ netProfit (reportTotals c5Entries 0 10) = 600
      ∧ profitMargin (reportTotals c5Entries 0 10) = 60 := by
  norm_num [reportTotals, c5Entries, inRange, entryStep, lineStep, netProfit, profitMargin,
    salesAcct, rentAcct]

/-- C8: the Banking view computes the displayed balance as the literal `0`
    (`balance: 0 // Will be calculated from journal entries`) and never
    recomputes it, while the full-history signed sum over the stored lines
    of the `Cash` account is 100 — the two disagree, so the displayed
    balance is not the running balance the code's own comment promises. -/
theorem c8_balance_bug :
    (bankAccountsData [cashAcct]).map BankAccount.balance = [0]
      ∧ specFullHistoryBalance dbWithUse.journal_lines "C1" = 100
      ∧ ((0 : ℚ) ≠ 100) := by
  refine ⟨by decide, ?_, by decide⟩
  norm_num [specFullHistoryBalance, dbWithUse]

/-- C3, counterexample: on a state with one account (`C1`) referenced by one
    journal line, `handleDeleteAccount` succeeds, removes the account and
    cascade-deletes the referencing line — refuting both the `AccountInUse`
    failure and the claim that account and lines remain unchanged. -/
theorem c3_counterexample :
    (handleDeleteAccount dbWithUse "C1").journal_lines ≠ dbWithUse.journal_lines
      ∧ dbWithUse.journal_lines = [lineOnCash]
      ∧ (handleDeleteAccount dbWithUse "C1").accounts = [] := by
  decide

/-- C3, amended: deleting an account always succeeds, even when journal
    lines reference it; afterwards the account is gone, every referencing
    line has been cascade-deleted, and every non-referencing line survives
    (`journal_lines.account_id … ON DELETE CASCADE`; no `AccountInUse`
    error exists in the code). -/
theorem c3_amended (db : Db) (aid : String) :
    (∀ a ∈ (handleDeleteAccount db aid).accounts, a.id ≠ aid)
      ∧ (∀ l, l.account_id = aid → l ∉ (handleDeleteAccount db aid).journal_lines)
      ∧ (∀ l ∈ db.journal_lines, l.account_id ≠ aid →
          l ∈ (handleDeleteAccount db aid).journal_lines) := by
  refine ⟨?_, ?_, ?_⟩
  · intro a ha
    simp only [handleDeleteAccount] at ha
    obtain ⟨b, hb, rfl⟩ := List.mem_map.1 ha
    have hbne : b.id ≠ aid := by
      have := (List.mem_filter.1 hb).2
      simpa using this
    by_cases hp : b.parent_account_id = some aid
    · simpa [hp] using hbne
    · simpa [hp] using hbne
  · intro l hlaid hmem
    simp only [handleDeleteAccount] at hmem
    have := (List.mem_filter.1 hmem).2
    simp [hlaid] at this
  · intro l hl hlne
    simp only [handleDeleteAccount]
    exact List.mem_filter.2 ⟨hl, by simpa using hlne⟩

/-- Witness for `c3_amended`: the referencing line is gone after the
    delete. -/
theorem c3_witness : lineOnCash ∉ (handleDeleteAccount dbWithUse "C1").journal_lines :=
  (c3_amended dbWithUse "C1").2.1 lineOnCash (by decide)

/-- C9, counterexample: in the `part_005` variant of `loadAccounts`, the
    account whose stated parent `zz` does not resolve is neither a root nor
    in any loaded account's children list — it is dropped from the forest,
    refuting the claim for that assembly. -/
theorem c9_counterexample :
    acctDangling ∈ forestData
      ∧ acctDangling ∉ rootAccountsV5 forestData
      ∧ (∀ p ∈ forestData, acctDangling ∉ childrenOf forestData p) := by
  decide

/-- C9, amended: in `ChartOfAccounts.tsx`'s `loadAccounts`, an account with
    no parent or with a dangling parent reference is a root, and an account
    whose parent resolves appears in that parent's children list — no loaded
    account is dropped there; the older assembly in `part_005` instead drops
    dangling-parent accounts (see the counterexample). -/
theorem c9_amended (data : List Account) (a : Account) (h : a ∈ data) :
    (a.parent_account_id = none → a ∈ rootAccounts data)
      ∧ (∀ pid, a.parent_account_id = some pid → pid ∉ data.map Account.id →
          a ∈ rootAccounts data)
      ∧ (∀ p ∈ data, a.parent_account_id = some p.id → a ∈ childrenOf data p) := by
  refine ⟨?_, ?_, ?_⟩
  · intro hn
    exact List.mem_filter.2 ⟨h, by simp [hn]⟩
  · intro pid hp hnm
    exact List.mem_filter.2 ⟨h, by simp [hp, hnm]⟩
  · intro p hp hap
    exact List.mem_filter.2 ⟨h, by simp [hap]⟩

/-- Witness for `c9_amended`: the dangling-parent account is a root in the
    `ChartOfAccounts.tsx` assembly. -/
theorem c9_witness : acctDangling ∈ rootAccounts forestData :=
  (c9_amended forestData acctDangling (by decide)).2.1 "zz" (by decide) (by decide)

/-- C10: under the schema constraint that a persisted line is never both a
    debit and a credit, the Banking projection maps a resolved line with
    positive debit to a transaction of amount `-debit`, a resolved line with
    positive credit to one of amount `credit` (the account's type is never
    consulted), and produces no transaction for a line with both amounts
    zero or with an unresolved account. -/
theorem c10_projection (e : JournalEntry) (l : JournalLine)
    (hdb : ¬(0 < l.debit ∧ 0 < l.credit)) :
    (∀ a, l.account = some a → 0 < l.debit →
        lineToTransaction e l
          = some { date := e.date, description := e.description,
                   amount := -l.debit, category := a.name })
      ∧ (∀ a, l.account = some a → 0 < l.credit →
          lineToTransaction e l
            = some { date := e.date, description := e.description,
                     amount := l.credit, category := a.name })
      ∧ (l.debit = 0 → l.credit = 0 → lineToTransaction e l = none)
      ∧ (l.account = none → lineToTransaction e l = none) := by
  refine ⟨?_, ?_, ?_, ?_⟩
  · intro a ha hd
    simp [lineToTransaction, ha, hd]
  · intro a ha hc
    have hd : ¬(0 < l.debit) := fun hd => hdb ⟨hd, hc⟩
    simp [lineToTransaction, ha, hc, hd]
  · intro hd0 hc0
    cases ha : l.account with
    | none => simp [lineToTransaction, ha]
    | some a => simp [lineToTransaction, ha, hd0, hc0]
  · intro hn
    simp [lineToTransaction, hn]

/-- Witness for `c10_projection` at a concrete credit line. -/
theorem c10_witness :
    lineToTransaction c10Entry creditLineOnSales
      = some { date := 7, description := "invoice paid",
               amount := 250, category := "Sales Revenue" } :=
  (c10_projection c10Entry creditLineOnSales (by decide)).2.1 salesAcct (by decide)
    (by decide)

/-- C6, counterexample: seeding a state that already holds one account (code
    `9999`) succeeds and raises the account count from 1 to 17 — refuting
    "inserts only when the organization has zero accounts"; and the second
    of two successive runs from an empty state surfaces an error — refuting
    "silent no-op, not an error". -/
theorem c6_counterexample :
    (applySeed oneCustomAccount).length = 17
      ∧ oneCustomAccount ≠ ([] : List SeedAccount)
      ∧ seedErrored (applySeed []) = true := by
  decide

/-- C6, amended: `createDefaultAccounts` inserts the fixed default chart
    unconditionally, but the `UNIQUE(organization_id, code)` constraint
    rejects the whole batch whenever a default code already exists, so
    running the seeding twice in succession leaves exactly the state of
    running it once (the second run reports an error instead of being a
    silent no-op, and pre-existing accounts with non-conflicting codes do
    not prevent insertion). -/
theorem c6_amended (s : List SeedAccount) : applySeed (applySeed s) = applySeed s := by
  cases hb : codeConflict s defaultAccounts || hasDupCode defaultAccounts with
  | true =>
    have hs : applySeed s = s := by
      simp [applySeed, createDefaultAccounts, insertAccounts, hb]
    rw [hs]
    exact hs
  | false =>
    have hs : applySeed s = s ++ defaultAccounts := by
      simp [applySeed, createDefaultAccounts, insertAccounts, hb]
    have hconf : codeConflict (s ++ defaultAccounts) defaultAccounts = true := by
      apply List.any_eq_true.mpr
      refine ⟨⟨"1000", "Cash and Cash Equivalents", AccountType.asset⟩, ?_, ?_⟩
      · simp [defaultAccounts]
      · apply List.any_eq_true.mpr
        exact ⟨⟨"1000", "Cash and Cash Equivalents", AccountType.asset⟩,
          by simp [defaultAccounts], by simp⟩
    rw [hs]
    simp [applySeed, createDefaultAccounts, insertAccounts, hconf]

/-- One aggregation step adds exactly the income-credit contribution to
    `totalRevenue` and the expense-debit contribution to `totalExpenses`. -/
theorem lineStep_spec (t : ReportTotals) (l : JournalLine) :
    lineStep t l
      = ⟨t.totalRevenue + creditIfIncome l, t.totalExpenses + debitIfExpense l⟩ := by
  unfold lineStep creditIfIncome debitIfExpense
  cases h : l.account with
  | none => simp
  | some a =>
    by_cases h1 : a.type = AccountType.income ∧ 0 < l.credit
    · by_cases h2 : a.type = AccountType.expense ∧ 0 < l.debit
      · exact absurd (h1.1 ▸ h2.1) (by simp)
      · simp [h1, h2]
    · by_cases h2 : a.type = AccountType.expense ∧ 0 < l.debit
      · simp [h1, h2]
      · simp [h1, h2]

/-- Folding the line step over a list of lines adds the per-line
    contributions. -/
theorem lines_foldl_spec (ls : List JournalLine) (t : ReportTotals) :
    ls.foldl lineStep t
      = ⟨t.totalRevenue + (ls.map creditIfIncome).sum,
         t.totalExpenses + (ls.map debitIfExpense).sum⟩ := by
  induction ls generalizing t with
  | nil => simp
  | cons l ls ih =>
    rw [List.foldl_cons, lineStep_spec, ih]
    simp [add_assoc]

/-- Folding the entry step over a list of entries adds the per-entry
    contribution sums. -/
theorem entries_foldl_spec (es : List JournalEntry) (t : ReportTotals) :
    es.foldl entryStep t
      = ⟨t.totalRevenue + (es.map (fun e => (e.lines.map creditIfIncome).sum)).sum,
         t.totalExpenses + (es.map (fun e => (e.lines.map debitIfExpense).sum)).sum⟩ := by
  induction es generalizing t with
  | nil => simp
  | cons e es ih =>
    rw [List.foldl_cons]
    simp only [entryStep]
    rw [lines_foldl_spec, ih]
    simp [add_assoc]

/-- C4, counterexample: on a single in-range debit of 100 against an income
    account, the code's aggregation leaves `totalRevenue` at 0, while the
    specification's sign convention (credit increases, debit decreases an
    income account's signed total) prescribes −100 — the debit is ignored,
    not subtracted. -/
theorem c4_counterexample :
    (reportTotals c4Entries 0 10).totalRevenue = 0
      ∧ specIncomeSignedTotal c4Entries 0 10 = -100
      ∧ ¬((0 : ℚ) = -100) := by
  refine ⟨?_, ?_, by decide⟩
  · norm_num [reportTotals, c4Entries, inRange, entryStep, lineStep, salesAcct]
    decide
  · norm_num [specIncomeSignedTotal, c4Entries, inRange, specSignedDelta, salesAcct]

/-- C4, amended: the aggregation counts only positive credits on income
    accounts towards `totalRevenue` and only positive debits on expense
    accounts towards `totalExpenses`; a debit against an income account, a
    credit against an expense account, and every line against an asset,
    liability or equity account contribute nothing to either total. -/
theorem c4_amended (entries : List JournalEntry) (lo hi : ℕ) :
    (reportTotals entries lo hi).totalRevenue
        = ((entries.filter (inRange lo hi)).map
            (fun e => (e.lines.map creditIfIncome).sum)).sum
      ∧ (reportTotals entries lo hi).totalExpenses
        = ((entries.filter (inRange lo hi)).map
            (fun e => (e.lines.map debitIfExpense).sum)).sum := by
  unfold reportTotals
  rw [entries_foldl_spec]
  constructor <;> simp

/-- Unfolding of `valueOf` on a cons cell. -/
theorem valueOf_cons (p : String × ℚ) (m : List (String × ℚ)) (k : String) :
    valueOf (p :: m) k = (if p.1 = k then p.2 else 0) + valueOf m k := by
  simp [valueOf]

/-- Unfolding of `keysOf` on a cons cell. -/
theorem keysOf_cons (p : String × ℚ) (m : List (String × ℚ)) :
    keysOf (p :: m) = p.1 :: keysOf m := rfl

/-- `upsertAdd` adds its amount to the total stored under its key and leaves
    every other total unchanged. -/
theorem valueOf_upsertAdd (m : List (String × ℚ)) (k k1 : String) (v : ℚ) :
    valueOf (upsertAdd m k v) k1 = valueOf m k1 + (if k = k1 then v else 0) := by
  induction m with
  | nil =>
    by_cases h : k = k1 <;> simp [upsertAdd, valueOf, h]
  | cons p rest ih =>
    obtain ⟨k0, v0⟩ := p
    simp only [upsertAdd]
    by_cases h : k0 = k
    · subst h
      rw [if_pos rfl, valueOf_cons, valueOf_cons]
      by_cases h1 : k0 = k1
      · rw [if_pos h1, if_pos h1, if_pos h1]
        ring
      · rw [if_neg h1, if_neg h1, if_neg h1]
        ring
    · rw [if_neg h, valueOf_cons, valueOf_cons, ih]
      ring

/-- A key is in the map after `upsertAdd` iff it was there before or is the
    inserted key. -/
theorem mem_keysOf_upsertAdd (m : List (String × ℚ)) (k k1 : String) (v : ℚ) :
    k1 ∈ keysOf (upsertAdd m k v) ↔ k1 ∈ keysOf m ∨ k1 = k := by
  induction m with
  | nil => simp [upsertAdd, keysOf]
  | cons p rest ih =>
    obtain ⟨k0, v0⟩ := p
    simp only [upsertAdd]
    by_cases h : k0 = k
    · subst h
      simp [keysOf_cons]
      tauto
    · rw [if_neg h]
      rw [keysOf_cons, keysOf_cons]
      simp only [List.mem_cons, ih]
      tauto

/-- `upsertAdd` keeps the keys of the map distinct. -/
theorem nodup_keysOf_upsertAdd (m : List (String × ℚ)) (k : String) (v : ℚ)
    (h : (keysOf m).Nodup) : (keysOf (upsertAdd m k v)).Nodup := by
  induction m with
  | nil => simp [upsertAdd, keysOf]
  | cons p rest ih =>
    obtain ⟨k0, v0⟩ := p
    rw [keysOf_cons, List.nodup_cons] at h
    obtain ⟨h1, h2⟩ := h
    simp only [upsertAdd]
    by_cases hk : k0 = k
    · subst hk
      rw [if_pos rfl, keysOf_cons, List.nodup_cons]
      exact ⟨h1, h2⟩
    · rw [if_neg hk, keysOf_cons, List.nodup_cons]
      refine ⟨?_, ih h2⟩
      intro hmem
      rcases (mem_keysOf_upsertAdd rest k k0 v).1 hmem with hmem1 | hmem1
      · exact h1 hmem1
      · exact hk hmem1

/-- One category step adds exactly the line's contribution to each key. -/
theorem valueOf_categoryStep (m : List (String × ℚ)) (l : JournalLine) (k : String) :
    valueOf (categoryStep m l) k = valueOf m k + categoryContrib k l := by
  cases h : l.account with
  | none => simp [categoryStep, categoryContrib, h]
  | some a =>
    by_cases h1 : a.type = AccountType.expense ∧ 0 < l.debit
    · by_cases hn : a.name = k
      · simp [categoryStep, categoryContrib, h, h1, hn, valueOf_upsertAdd]
      · simp [categoryStep, categoryContrib, h, h1, hn, valueOf_upsertAdd]
    · have h2 : ¬(a.type = AccountType.expense ∧ 0 < l.debit ∧ a.name = k) := by tauto
      simp [categoryStep, categoryContrib, h, h1, h2]

/-- One category step keeps the keys distinct. -/
theorem nodup_keysOf_categoryStep (m : List (String × ℚ)) (l : JournalLine)
    (h : (keysOf m).Nodup) : (keysOf (categoryStep m l)).Nodup := by
  cases ha : l.account with
  | none => simpa [categoryStep, ha] using h
  | some a =>
    by_cases h1 : a.type = AccountType.expense ∧ 0 < l.debit
    · have hu := nodup_keysOf_upsertAdd m a.name l.debit h
      simpa [categoryStep, ha, h1] using hu
    · simpa [categoryStep, ha, h1] using h

/-- Folding the category step over the lines adds the per-line
    contributions. -/
theorem valueOf_lines_catfoldl (ls : List JournalLine) (m : List (String × ℚ))
    (k : String) :
    valueOf (ls.foldl categoryStep m) k
      = valueOf m k + (ls.map (categoryContrib k)).sum := by
  induction ls generalizing m with
  | nil => simp
  | cons l ls ih =>
    rw [List.foldl_cons, ih, valueOf_categoryStep]
    simp [add_assoc]

/-- Folding the category step over the entries adds the per-entry
    contribution sums. -/
theorem valueOf_entries_catfoldl (es : List JournalEntry) (m : List (String × ℚ))
    (k : String) :
    valueOf (es.foldl (fun m e => e.lines.foldl categoryStep m) m) k
      = valueOf m k + (es.map (fun e => (e.lines.map (categoryContrib k)).sum)).sum := by
  induction es generalizing m with
  | nil => simp
  | cons e es ih =>
    rw [List.foldl_cons, ih, valueOf_lines_catfoldl]
    simp [add_assoc]

/-- The line fold keeps the keys distinct. -/
theorem nodup_keysOf_lines_catfoldl (ls : List JournalLine) (m : List (String × ℚ))
    (h : (keysOf m).Nodup) : (keysOf (ls.foldl categoryStep m)).Nodup := by
  induction ls generalizing m with
  | nil => exact h
  | cons l ls ih =>
    rw [List.foldl_cons]
    exact ih _ (nodup_keysOf_categoryStep m l h)

/-- The entry fold keeps the keys distinct. -/
theorem nodup_keysOf_entries_catfoldl (es : List JournalEntry)
    (m : List (String × ℚ)) (h : (keysOf m).Nodup) :
    (keysOf (es.foldl (fun m e => e.lines.foldl categoryStep m) m)).Nodup := by
  induction es generalizing m with
  | nil => exact h
  | cons e es ih =>
    rw [List.foldl_cons]
    exact ih _ (nodup_keysOf_lines_catfoldl e.lines m h)

/-- C7, counterexample: with `Rent Expense` (total 10) encountered before
    `Ads Expense` (total 20), the breakdown keeps first-encounter order —
    10 before 20 — so it is not sorted descending by total as the claim
    requires. -/
theorem c7_counterexample :
    expenseBreakdown c7Entries 0 10 = [("Rent Expense", 10), ("Ads Expense", 20)]
      ∧ descendingByValue (expenseBreakdown c7Entries 0 10) = false := by
  decide

/-- C7, amended: the breakdown is the first five entries of the
    insertion-ordered category map — no sorting and no tie-break is applied;
    the map's keys are distinct and the total stored under each name is the
    summed debit of the in-range positive-debit expense lines carrying that
    account name. -/
theorem c7_amended (entries : List JournalEntry) (lo hi : ℕ) :
    (expenseBreakdown entries lo hi).length ≤ 5
      ∧ (keysOf (expensesByCategory entries lo hi)).Nodup
      ∧ ∀ k, valueOf (expensesByCategory entries lo hi) k
          = ((entries.filter (inRange lo hi)).map
              (fun e => (e.lines.map (categoryContrib k)).sum)).sum := by
  refine ⟨?_, ?_, ?_⟩
  · simp only [expenseBreakdown]
    rw [List.length_take]
    exact min_le_left _ _
  · unfold expensesByCategory
    exact nodup_keysOf_entries_catfoldl _ _ (by simp [keysOf])
  · intro k
    unfold expensesByCategory
    rw [valueOf_entries_catfoldl]
    simp [valueOf]

end Xero
